import Mathlib

/-!
Shallow embedding of `src/change.py` (`ChangeStreamTester`).

The tester exercises a resumable change-event stream over a single
collection.  The external event source (the replicated store and its
change-stream protocol) is modelled, per the spec's external-collaborator
contract (§4.1–4.2), as an append-only log of documents: a change event is
the pair of its position in that log (the opaque sequence marker) and its
payload, and a resume token is a position — a stream opened at token `t`
delivers the events at positions `t, t+1, …` (exclusive resume semantics).
Externally injected failures (an invalid/expired resume token, a failed
insert, a failure while pulling the next event) are supplied by an `Env`
of oracles; the deterministic happy path is the `Env` answering `none`
everywhere.  Timestamps carried by the inserted documents are opaque and
never read by the tester, so they are omitted from the payloads.

A Python loop that would block forever (the tester's collection loops have
no timeout) is modelled by the `Outcome.hangs` result; an uncaught Python
exception propagating out of a function is `Outcome.raises msg`.
-/

set_option autoImplicit false

namespace ChangeStream

/-- Payloads of the documents inserted by the tester:
`{"test": i}` (first phase of the resume test), `{"test": "resumed_i"}`
(second phase), and `{"phase": s}` (durability test). -/
inductive Doc where
  | testDoc (i : Nat)
  | resumedDoc (i : Nat)
  | phaseDoc (phase : String)
deriving DecidableEq, Repr

/-- A change event: sequence marker (position in the insert log) together
with the inserted payload. -/
abbrev Event := Nat × Doc

/-- Oracles for the failures the external store can inject:
`resumeErr t` is the error raised by `watch(resume_after = t)` (if any),
`insertErr n` the error raised by `insert_one` when the log currently has
`n` documents, and `nextErr m` the error raised while pulling the event
with marker `m` from an open stream. -/
structure Env where
  resumeErr : Nat → Option String
  insertErr : Nat → Option String
  nextErr : Nat → Option String

/-- The environment injects no failure at all (healthy store, valid
retention window). -/
def Env.Benign (env : Env) : Prop :=
  (∀ n, env.resumeErr n = none) ∧ (∀ n, env.insertErr n = none) ∧
    (∀ n, env.nextErr n = none)

/-- A concrete healthy environment. -/
def benignEnv : Env :=
  { resumeErr := fun _ => none, insertErr := fun _ => none,
    nextErr := fun _ => none }

/-- Environment in which every `watch(resume_after = …)` call raises. -/
def resumeFailEnv : Env :=
  { resumeErr := fun _ => some "resume token expired",
    insertErr := fun _ => none, nextErr := fun _ => none }

/-- Environment in which the insert at log position 1 (the post-disconnect
append of the durability test run on an empty collection) raises. -/
def postInsertFailEnv : Env :=
  { resumeErr := fun _ => none,
    insertErr := fun n => if n = 1 then some "insert failed" else none,
    nextErr := fun _ => none }

/-- Result of running a piece of the tester: the Python code either blocks
forever in a collection loop (`hangs`), lets an exception propagate
(`raises`), or returns a value. -/
inductive Outcome (α : Type) where
  | hangs
  | raises (msg : String)
  | returns (v : α)
deriving DecidableEq

/-- Sequencing of tester steps: a hang or an uncaught exception aborts the
rest of the computation. -/
def Outcome.bind {α β : Type} : Outcome α → (α → Outcome β) → Outcome β
  | .hangs, _ => .hangs
  | .raises msg, _ => .raises msg
  | .returns v, f => f v

/-- An `insert_one` call either raises or extends the log. -/
def ofExcept {α : Type} : Except String α → Outcome α
  | .error msg => .raises msg
  | .ok v => .returns v

/-- Attach sequence markers `p, p+1, …` to a block of appended documents. -/
def withMarkers : Nat → List Doc → List Event
  | _, [] => []
  | p, d :: ds => (p, d) :: withMarkers (p + 1) ds

/-- The events a stream positioned at token `p` will deliver, given the
log of all documents appended so far. -/
def eventsFrom (log : List Doc) (p : Nat) : List Event :=
  withMarkers p (log.drop p)

/-- Model of `self.collection.insert_one(d)`: consults the environment at the
current log length and otherwise appends. -/
def insertOne (env : Env) (log : List Doc) (d : Doc) :
    Except String (List Doc) :=
  match env.insertErr log.length with
  | some msg => .error msg
  | none => .ok (log ++ [d])

/-- The tester's insert loops (`for i in range(iterations): insert_one …`). -/
def insertMany (env : Env) (log : List Doc) : List Doc → Except String (List Doc)
  | [] => .ok log
  | d :: ds =>
    match insertOne env log d with
    | .error msg => .error msg
    | .ok log1 => insertMany env log1 ds

/-- The documents of the first insert loop of
`test_resume_token_persistence`: `{"test": 0} … {"test": iterations-1}`. -/
def testDocs (iterations : Nat) : List Doc :=
  (List.range iterations).map Doc.testDoc

/-- The documents of the post-resume insert loop:
`{"test": "resumed_0"} … {"test": "resumed_{iterations-1}"}`. -/
def resumedDocs (iterations : Nat) : List Doc :=
  (List.range iterations).map Doc.resumedDoc

/-- The tester's collection loop
`for change in stream: buf.append(change); if len(buf) >= n: break`:
pulls events one at a time from the stream's pending deliveries `avail`
into the buffer `buf`, breaking as soon as the buffer holds `n` events.
Pulling the next event consults `env.nextErr`; if the pending deliveries
run out before the buffer is full the loop blocks forever (the iteration
has no timeout), which is the `hangs` outcome. -/
def collectLoop (env : Env) : List Event → List Event → Nat → Outcome (List Event)
  | [], _, _ => .hangs
  | e :: rest, buf, n =>
    match env.nextErr e.1 with
    | some msg => .raises msg
    | none =>
      if n ≤ buf.length + 1 then .returns (buf ++ [e])
      else collectLoop env rest (buf ++ [e]) n

/-- Model of `self.collection.watch(resume_after = tok)`: raises if the environment
declares the token invalid, otherwise yields a stream positioned at `tok`. -/
def watchResume (env : Env) (tok : Nat) : Outcome Unit :=
  match env.resumeErr tok with
  | some msg => .raises msg
  | none => .returns ()

/-- The dictionary returned by `test_resume_token_persistence`. -/
structure ResumeResult where
  initial_events : Nat
  resumed_events : Nat
  success : Bool
deriving DecidableEq, Repr

/-- Full observable trace of one run of `test_resume_token_persistence`:
the events collected on each stream, the captured token, the final log,
and the returned dictionary. -/
structure ResumeTrace where
  initial_token : Nat
  events : List Event
  last_resume_token : Nat
  new_events : List Event
  log : List Doc
  result : ResumeResult
deriving DecidableEq, Repr

/-- The dictionary returned by `test_stream_durability` (the `error` key
is present only on the exception path). -/
structure DurResult where
  pre_disconnect_events : Nat
  post_disconnect_events : Nat
  success : Bool
  error : Option String
deriving DecidableEq, Repr

/-- Full observable trace of one run of `test_stream_durability`. -/
structure DurTrace where
  preEvents : List Event
  tok : Nat
  postEvents : List Event
  result : DurResult
deriving DecidableEq, Repr

/-- The dictionary returned by `run_all_tests`. -/
structure RunResults where
  resume_token_test : ResumeResult
  durability_test : DurResult
deriving DecidableEq, Repr

/-- Embedding of `test_resume_token_persistence(self, iterations=5)` from
`src/change.py`, lines 24–69.  `log0` is the collection's insert log when
the method is entered.  The fresh `watch()` positions the stream at the
end of the log; `iterations` documents are inserted and collected; the
resume token after the last collected event is captured; the stream is
reopened at that token; `iterations` more documents are inserted and
collected; the returned dictionary reports the two counts and
`success = (len(new_events) == iterations)`. -/
def test_resume_token_persistence (env : Env) (log0 : List Doc)
    (iterations : Nat) : Outcome ResumeTrace :=
  let p0 := log0.length
  Outcome.bind (ofExcept (insertMany env log0 (testDocs iterations))) fun log1 =>
  Outcome.bind (collectLoop env (eventsFrom log1 p0) [] iterations) fun events =>
  let last_resume_token := p0 + events.length
  Outcome.bind (watchResume env last_resume_token) fun _ =>
  Outcome.bind (ofExcept (insertMany env log1 (resumedDocs iterations))) fun log2 =>
  Outcome.bind (collectLoop env (eventsFrom log2 last_resume_token) [] iterations)
    fun new_events =>
  .returns
    { initial_token := p0
      events := events
      last_resume_token := last_resume_token
      new_events := new_events
      log := log2
      result :=
        { initial_events := events.length
          resumed_events := new_events.length
          success := new_events.length == iterations } }

/-- The body of the `try:` block of `test_stream_durability`
(lines 91–100): reopen the stream at the captured token, append the
`{"phase": "post-disconnect"}` document, and collect one event. -/
def durabilityTryBody (env : Env) (log1 : List Doc) (tok : Nat) :
    Outcome (List Event × List Doc) :=
  Outcome.bind (watchResume env tok) fun _ =>
  Outcome.bind (ofExcept (insertOne env log1 (Doc.phaseDoc "post-disconnect")))
    fun log2 =>
  Outcome.bind (collectLoop env (eventsFrom log2 tok) [] 1) fun post =>
  .returns (post, log2)

/-- Embedding of `test_stream_durability(self, disconnect_duration=5)` from
`src/change.py`, lines 71–115.  A fresh stream is opened, one
`{"phase": "pre-disconnect"}` document is inserted and one event
collected, the resume token is captured, the stream is closed and the
flow sleeps for `disconnect_duration` seconds (no effect on the log).
The `try:` block then resumes, appends the post-disconnect document and
collects one event; `except Exception` converts any exception from that
block into a returned dictionary with `success = False`,
`post_disconnect_events = 0` and the stringified error. -/
def test_stream_durability (env : Env) (log0 : List Doc)
    (disconnect_duration : Nat) : Outcome DurTrace :=
  let p0 := log0.length
  let _ := disconnect_duration
  Outcome.bind (ofExcept (insertOne env log0 (Doc.phaseDoc "pre-disconnect")))
    fun log1 =>
  Outcome.bind (collectLoop env (eventsFrom log1 p0) [] 1) fun pre =>
  let tok := p0 + pre.length
  match durabilityTryBody env log1 tok with
  | .hangs => .hangs
  | .raises msg =>
    .returns
      { preEvents := pre, tok := tok, postEvents := []
        result :=
          { pre_disconnect_events := pre.length, post_disconnect_events := 0
            success := false, error := some msg } }
  | .returns (post, _log2) =>
    .returns
      { preEvents := pre, tok := tok, postEvents := post
        result :=
          { pre_disconnect_events := pre.length
            post_disconnect_events := post.length
            success := decide (0 < post.length), error := none } }

/-- The state of the test collection: its documents (the insert log) and
whether the `_id` index created by `setup` exists. -/
structure DBState where
  docs : List Doc
  hasIndex : Bool
deriving DecidableEq, Repr

/-- Model of `self.collection.drop()`: removes the collection entirely — all
documents and all indexes — regardless of its previous content. -/
def DBState.drop (_s : DBState) : DBState :=
  { docs := [], hasIndex := false }

/-- Model of `self.collection.create_index` on the `_id` field. -/
def DBState.create_index (s : DBState) : DBState :=
  { s with hasIndex := true }

/-- Embedding of `setup(self)` from `src/change.py`, lines 15–22: drop the collection,
then create the index. -/
def setup (s : DBState) : DBState :=
  s.drop.create_index

/-- Embedding of `run_all_tests(self)` from `src/change.py`, lines 117–126: run
`setup`, then both scenarios with the Python default arguments
`iterations = 5` and `disconnect_duration = 5`, gathering the two result
dictionaries into one mapping that is returned to the caller. -/
def run_all_tests (env : Env) (s0 : DBState) : Outcome RunResults :=
  let s1 := setup s0
  Outcome.bind (test_resume_token_persistence env s1.docs 5) fun a =>
  Outcome.bind (test_stream_durability env a.log 5) fun b =>
  .returns { resume_token_test := a.result, durability_test := b.result }

/-- Concrete trace of `test_resume_token_persistence benignEnv [] 1`. -/
def trcA1 : ResumeTrace :=
  { initial_token := 0
    events := [(0, Doc.testDoc 0)]
    last_resume_token := 1
    new_events := [(1, Doc.resumedDoc 0)]
    log := [Doc.testDoc 0, Doc.resumedDoc 0]
    result := { initial_events := 1, resumed_events := 1, success := true } }

/-- Concrete trace of `test_resume_token_persistence benignEnv [] 2`. -/
def trcA2 : ResumeTrace :=
  { initial_token := 0
    events := [(0, Doc.testDoc 0), (1, Doc.testDoc 1)]
    last_resume_token := 2
    new_events := [(2, Doc.resumedDoc 0), (3, Doc.resumedDoc 1)]
    log := [Doc.testDoc 0, Doc.testDoc 1, Doc.resumedDoc 0, Doc.resumedDoc 1]
    result := { initial_events := 2, resumed_events := 2, success := true } }

/-- Concrete trace of `test_stream_durability benignEnv [] 5`. -/
def trcB : DurTrace :=
  { preEvents := [(0, Doc.phaseDoc "pre-disconnect")]
    tok := 1
    postEvents := [(1, Doc.phaseDoc "post-disconnect")]
    result :=
      { pre_disconnect_events := 1, post_disconnect_events := 1
        success := true, error := none } }

/-! ## Basic lemmas about the stream model -/

theorem benignEnv_benign : benignEnv.Benign :=
  ⟨fun _ => rfl, fun _ => rfl, fun _ => rfl⟩

theorem withMarkers_length (p : Nat) (ds : List Doc) :
    (withMarkers p ds).length = ds.length := by
  induction ds generalizing p with
  | nil => rfl
  | cons d ds ih => simp [withMarkers, ih]

theorem mem_withMarkers_marker {e : Event} :
    ∀ (p : Nat) (ds : List Doc), e ∈ withMarkers p ds →
      p ≤ e.1 ∧ e.1 < p + ds.length := by
  intro p ds
  induction ds generalizing p with
  | nil => intro h; simp [withMarkers] at h
  | cons d ds ih =>
    intro h
    rw [withMarkers, List.mem_cons] at h
    rcases h with h | h
    · subst h; simp
    · have := ih (p + 1) h
      constructor <;> [omega; (simp only [List.length_cons]; omega)]

theorem withMarkers_getElem? :
    ∀ (ds : List Doc) (p i : Nat),
      (withMarkers p ds)[i]? = ds[i]?.map (fun d => (p + i, d)) := by
  intro ds
  induction ds with
  | nil => intro p i; simp [withMarkers]
  | cons d ds ih =>
    intro p i
    cases i with
    | zero => simp [withMarkers]
    | succ i =>
      simp only [withMarkers, List.getElem?_cons_succ, ih (p + 1) i]
      have : p + 1 + i = p + (i + 1) := by omega
      rw [this]

theorem withMarkers_take :
    ∀ (ds : List Doc) (p k : Nat),
      (withMarkers p ds).take k = withMarkers p (ds.take k) := by
  intro ds
  induction ds with
  | nil => intro p k; simp [withMarkers]
  | cons d ds ih =>
    intro p k
    cases k with
    | zero => simp [withMarkers]
    | succ k => simp [withMarkers, ih (p + 1) k]

theorem eventsFrom_append (log ds : List Doc) :
    eventsFrom (log ++ ds) log.length = withMarkers log.length ds := by
  rw [eventsFrom, List.drop_left]

theorem eventsFrom_length (log : List Doc) (p : Nat) :
    (eventsFrom log p).length = log.length - p := by
  rw [eventsFrom, withMarkers_length, List.length_drop]

theorem eventsFrom_getElem? (log : List Doc) (p i : Nat) :
    (eventsFrom log p)[i]? = log[p + i]?.map (fun d => (p + i, d)) := by
  rw [eventsFrom, withMarkers_getElem?, List.getElem?_drop]

theorem insertMany_ok (env : Env) (hi : ∀ n, env.insertErr n = none) :
    ∀ (ds log : List Doc), insertMany env log ds = .ok (log ++ ds) := by
  intro ds
  induction ds with
  | nil => intro log; simp [insertMany]
  | cons d ds ih =>
    intro log
    simp only [insertMany, insertOne, hi log.length, ih (log ++ [d])]
    simp

/-! ## Lemmas about the collection loop -/

theorem collectLoop_ok (env : Env) (hn : ∀ m, env.nextErr m = none) :
    ∀ (avail buf : List Event) (n : Nat), buf.length < n →
      n ≤ buf.length + avail.length →
      collectLoop env avail buf n = .returns (buf ++ avail.take (n - buf.length)) := by
  intro avail
  induction avail with
  | nil =>
    intro buf n h1 h2
    simp only [List.length_nil] at h2
    omega
  | cons e rest ih =>
    intro buf n h1 h2
    rw [collectLoop, hn e.1]
    by_cases hle : n ≤ buf.length + 1
    · have hn1 : n = buf.length + 1 := by omega
      have ht : n - buf.length = 1 := by omega
      simp [hle, ht, List.take]
    · rw [if_neg hle]
      have h1' : (buf ++ [e]).length < n := by simp; omega
      have h2' : n ≤ (buf ++ [e]).length + rest.length := by
        simp only [List.length_append, List.length_cons] at h2 ⊢
        omega
      rw [ih (buf ++ [e]) n h1' h2']
      have harith : n - buf.length = (n - (buf ++ [e]).length) + 1 := by
        simp only [List.length_append, List.length_singleton]
        omega
      rw [harith, List.take_succ_cons, List.append_assoc, List.singleton_append]

theorem collectLoop_full (env : Env) (hn : ∀ m, env.nextErr m = none)
    (avail : List Event) (n : Nat) (h1 : 1 ≤ n) (h2 : n ≤ avail.length) :
    collectLoop env avail [] n = .returns (avail.take n) := by
  have := collectLoop_ok env hn avail [] n (by simpa using h1) (by simpa using h2)
  simpa using this

theorem collectLoop_exact (env : Env) (hn : ∀ m, env.nextErr m = none)
    (avail : List Event) (n : Nat) (h1 : 1 ≤ n) (h2 : avail.length = n) :
    collectLoop env avail [] n = .returns avail := by
  rw [collectLoop_full env hn avail n h1 (le_of_eq h2.symm),
    List.take_of_length_le (le_of_eq h2)]

theorem collectLoop_hangs (env : Env) (hn : ∀ m, env.nextErr m = none) :
    ∀ (avail buf : List Event) (n : Nat), buf.length + avail.length < n →
      collectLoop env avail buf n = .hangs := by
  intro avail
  induction avail with
  | nil => intro buf n _; rfl
  | cons e rest ih =>
    intro buf n h
    simp only [List.length_cons] at h
    rw [collectLoop, hn e.1, if_neg (by omega)]
    exact ih (buf ++ [e]) n (by simp; omega)

/-! ## Trace characterizations of the two scenarios -/

theorem resume_trace (env : Env) (log0 : List Doc) (it : Nat)
    (hb : env.Benign) (h1 : 1 ≤ it) :
    test_resume_token_persistence env log0 it = .returns
      { initial_token := log0.length
        events := withMarkers log0.length (testDocs it)
        last_resume_token := log0.length + it
        new_events := withMarkers (log0.length + it) (resumedDocs it)
        log := (log0 ++ testDocs it) ++ resumedDocs it
        result := { initial_events := it, resumed_events := it, success := true } } := by
  obtain ⟨hr, hi, hn⟩ := hb
  have l1 : (testDocs it).length = it := by simp [testDocs]
  have l2 : (resumedDocs it).length = it := by simp [resumedDocs]
  have e1 : insertMany env log0 (testDocs it) = .ok (log0 ++ testDocs it) :=
    insertMany_ok env hi _ _
  have e2 : collectLoop env (eventsFrom (log0 ++ testDocs it) log0.length) [] it
      = .returns (withMarkers log0.length (testDocs it)) := by
    rw [eventsFrom_append]
    exact collectLoop_exact env hn _ it h1 (by rw [withMarkers_length, l1])
  have len1 : (withMarkers log0.length (testDocs it)).length = it := by
    rw [withMarkers_length, l1]
  have e3 : insertMany env (log0 ++ testDocs it) (resumedDocs it)
      = .ok ((log0 ++ testDocs it) ++ resumedDocs it) := insertMany_ok env hi _ _
  have hlen : (log0 ++ testDocs it).length = log0.length + it := by
    rw [List.length_append, l1]
  have e4 : collectLoop env
      (eventsFrom ((log0 ++ testDocs it) ++ resumedDocs it) (log0.length + it)) [] it
      = .returns (withMarkers (log0.length + it) (resumedDocs it)) := by
    rw [← hlen, eventsFrom_append, hlen]
    exact collectLoop_exact env hn _ it h1 (by rw [withMarkers_length, l2])
  have len2 : (withMarkers (log0.length + it) (resumedDocs it)).length = it := by
    rw [withMarkers_length, l2]
  simp only [test_resume_token_persistence, e1, ofExcept, Outcome.bind, e2, len1,
    watchResume, hr, e3, e4, len2, beq_self_eq_true]

theorem resume_raises (env : Env) (log0 : List Doc) (it : Nat) (msg : String)
    (hi : ∀ n, env.insertErr n = none) (hn : ∀ m, env.nextErr m = none)
    (h1 : 1 ≤ it) (hr : env.resumeErr (log0.length + it) = some msg) :
    test_resume_token_persistence env log0 it = .raises msg := by
  have l1 : (testDocs it).length = it := by simp [testDocs]
  have e1 : insertMany env log0 (testDocs it) = .ok (log0 ++ testDocs it) :=
    insertMany_ok env hi _ _
  have e2 : collectLoop env (eventsFrom (log0 ++ testDocs it) log0.length) [] it
      = .returns (withMarkers log0.length (testDocs it)) := by
    rw [eventsFrom_append]
    exact collectLoop_exact env hn _ it h1 (by rw [withMarkers_length, l1])
  have len1 : (withMarkers log0.length (testDocs it)).length = it := by
    rw [withMarkers_length, l1]
  simp only [test_resume_token_persistence, e1, ofExcept, Outcome.bind, e2, len1,
    watchResume, hr]

theorem durability_unfold (env : Env) (log0 : List Doc) (dur : Nat)
    (hIns : env.insertErr log0.length = none)
    (hNext : env.nextErr log0.length = none) :
    test_stream_durability env log0 dur =
      match durabilityTryBody env (log0 ++ [Doc.phaseDoc "pre-disconnect"])
          (log0.length + 1) with
      | .hangs => .hangs
      | .raises msg =>
        .returns
          { preEvents := [(log0.length, Doc.phaseDoc "pre-disconnect")]
            tok := log0.length + 1
            postEvents := []
            result := { pre_disconnect_events := 1, post_disconnect_events := 0
                        success := false, error := some msg } }
      | .returns pl =>
        .returns
          { preEvents := [(log0.length, Doc.phaseDoc "pre-disconnect")]
            tok := log0.length + 1
            postEvents := pl.1
            result := { pre_disconnect_events := 1
                        post_disconnect_events := pl.1.length
                        success := decide (0 < pl.1.length), error := none } } := by
  have e1 : insertOne env log0 (Doc.phaseDoc "pre-disconnect")
      = .ok (log0 ++ [Doc.phaseDoc "pre-disconnect"]) := by
    rw [insertOne, hIns]
  have e2 : collectLoop env
      (eventsFrom (log0 ++ [Doc.phaseDoc "pre-disconnect"]) log0.length) [] 1
      = .returns [(log0.length, Doc.phaseDoc "pre-disconnect")] := by
    rw [eventsFrom_append]
    simp [withMarkers, collectLoop, hNext]
  simp only [test_stream_durability, e1, ofExcept, Outcome.bind, e2,
    List.length_cons, List.length_nil]
  cases durabilityTryBody env (log0 ++ [Doc.phaseDoc "pre-disconnect"])
      (log0.length + 1) with
  | hangs => rfl
  | raises msg => rfl
  | returns pl => cases pl; rfl

theorem durabilityTryBody_ok (env : Env) (log1 : List Doc)
    (hr : env.resumeErr log1.length = none)
    (hi : env.insertErr log1.length = none)
    (hn : env.nextErr log1.length = none) :
    durabilityTryBody env log1 log1.length =
      .returns ([(log1.length, Doc.phaseDoc "post-disconnect")],
        log1 ++ [Doc.phaseDoc "post-disconnect"]) := by
  have e1 : insertOne env log1 (Doc.phaseDoc "post-disconnect")
      = .ok (log1 ++ [Doc.phaseDoc "post-disconnect"]) := by
    rw [insertOne, hi]
  have e2 : collectLoop env
      (eventsFrom (log1 ++ [Doc.phaseDoc "post-disconnect"]) log1.length) [] 1
      = .returns [(log1.length, Doc.phaseDoc "post-disconnect")] := by
    rw [eventsFrom_append]
    simp [withMarkers, collectLoop, hn]
  simp only [durabilityTryBody, watchResume, hr, Outcome.bind, e1, ofExcept, e2]

theorem durability_trace (env : Env) (log0 : List Doc) (dur : Nat)
    (hb : env.Benign) :
    test_stream_durability env log0 dur = .returns
      { preEvents := [(log0.length, Doc.phaseDoc "pre-disconnect")]
        tok := log0.length + 1
        postEvents := [(log0.length + 1, Doc.phaseDoc "post-disconnect")]
        result := { pre_disconnect_events := 1, post_disconnect_events := 1
                    success := true, error := none } } := by
  obtain ⟨hr, hi, hn⟩ := hb
  have hlen : (log0 ++ [Doc.phaseDoc "pre-disconnect"]).length = log0.length + 1 := by
    simp
  have hbody := durabilityTryBody_ok env (log0 ++ [Doc.phaseDoc "pre-disconnect"])
    (hr _) (hi _) (hn _)
  rw [hlen] at hbody
  rw [durability_unfold env log0 dur (hi _) (hn _), hbody]
  simp

/-! ## The claims -/

/-- C1: In Scenario A (`test_resume_token_persistence`), for every
`iterations ≥ 1` under a healthy store, the returned result has
`success = true` iff the post-resume collection yields exactly
`iterations` events, no post-resume event duplicates a pre-resume event
(their sequence markers are all distinct), and the post-resume events are
exactly the `iterations` post-resume appends in append order (consecutive
markers starting right after the captured token, carrying the
`resumed_i` payloads). -/
theorem resume_success_iff_spec (env : Env) (log0 : List Doc) (it : Nat)
    (hb : env.Benign) (h1 : 1 ≤ it) :
    ∀ t, test_resume_token_persistence env log0 it = .returns t →
      (t.result.success = true ↔
        (t.new_events.length = it ∧
          (∀ e ∈ t.new_events, ∀ f ∈ t.events, e.1 ≠ f.1) ∧
          t.new_events = withMarkers (log0.length + it) (resumedDocs it))) := by
  intro t ht
  rw [resume_trace env log0 it hb h1] at ht
  injection ht with ht
  subst ht
  constructor
  case mpr => intro _; rfl
  intro _
  refine ⟨?_, ?_, rfl⟩
  · rw [withMarkers_length]; simp [resumedDocs]
  · intro e he f hf
    have hbe := mem_withMarkers_marker _ _ he
    have hbf := mem_withMarkers_marker _ _ hf
    have le1 : (resumedDocs it).length = it := by simp [resumedDocs]
    have le2 : (testDocs it).length = it := by simp [testDocs]
    rw [le1] at hbe
    rw [le2] at hbf
    omega

/-- C1 witness at `iterations = 1` on an empty collection. -/
theorem resume_success_iff_spec_witness :
    (benignEnv.Benign ∧ 1 ≤ 1 ∧
        test_resume_token_persistence benignEnv [] 1 = .returns trcA1) ∧
      (trcA1.result.success = true ↔
        (trcA1.new_events.length = 1 ∧
          (∀ e ∈ trcA1.new_events, ∀ f ∈ trcA1.events, e.1 ≠ f.1) ∧
          trcA1.new_events = withMarkers (([] : List Doc).length + 1) (resumedDocs 1))) :=
  ⟨⟨benignEnv_benign, by decide, by rfl⟩,
    resume_success_iff_spec benignEnv [] 1 benignEnv_benign (by decide) trcA1 (by rfl)⟩

/-- C2: No-gap, no-duplicate resume. For every `K ≥ 1`: a consumer that
collects `K` events from the stream positioned at `p` gets exactly the
first `K` pending events, whose markers all lie below `p + K`; the token
as of the `K`-th event is `p + K`, and a stream reopened at that token
delivers first exactly the `(K+1)`-th appended event (marker `p + K`):
never the `K`-th again, never skipping ahead. -/
theorem no_gap_no_dup_resume (env : Env) (log : List Doc) (p K : Nat)
    (hn : ∀ m, env.nextErr m = none) (h1 : 1 ≤ K) (h2 : p + K < log.length) :
    collectLoop env (eventsFrom log p) [] K = .returns ((eventsFrom log p).take K) ∧
      ((eventsFrom log p).take K).length = K ∧
      (eventsFrom log (p + K))[0]? = (eventsFrom log p)[K]? ∧
      (∃ d, (eventsFrom log (p + K))[0]? = some (p + K, d)) ∧
      (∀ e ∈ (eventsFrom log p).take K, e.1 < p + K) := by
  have hK : K ≤ (eventsFrom log p).length := by rw [eventsFrom_length]; omega
  refine ⟨collectLoop_full env hn _ K h1 hK, ?_, ?_, ?_, ?_⟩
  · rw [List.length_take, Nat.min_eq_left hK]
  · rw [eventsFrom_getElem?, eventsFrom_getElem?, Nat.add_zero]
  · refine ⟨log.get ⟨p + K, h2⟩, ?_⟩
    rw [eventsFrom_getElem?, Nat.add_zero, List.getElem?_eq_getElem h2]
    rfl
  · intro e he
    rw [eventsFrom, withMarkers_take] at he
    have hb := mem_withMarkers_marker _ _ he
    have hlen : ((log.drop p).take K).length ≤ K := by
      rw [List.length_take]; exact Nat.min_le_left _ _
    omega

/-- C2 witness: `K = 1` on a 3-document log watched from position 0. -/
theorem no_gap_no_dup_resume_witness :
    ((∀ m, benignEnv.nextErr m = none) ∧ 1 ≤ 1 ∧ 0 + 1 < (testDocs 3).length) ∧
      (collectLoop benignEnv (eventsFrom (testDocs 3) 0) [] 1
          = .returns ((eventsFrom (testDocs 3) 0).take 1) ∧
        ((eventsFrom (testDocs 3) 0).take 1).length = 1 ∧
        (eventsFrom (testDocs 3) (0 + 1))[0]? = (eventsFrom (testDocs 3) 0)[1]? ∧
        (∃ d, (eventsFrom (testDocs 3) (0 + 1))[0]? = some (0 + 1, d)) ∧
        (∀ e ∈ (eventsFrom (testDocs 3) 0).take 1, e.1 < 0 + 1)) :=
  ⟨⟨fun _ => rfl, by decide, by decide⟩,
    no_gap_no_dup_resume benignEnv (testDocs 3) 0 1 (fun _ => rfl) (by decide)
      (by decide)⟩

/-- C3 counterexample: with the store refusing every
`watch(resume_after = …)` call, the resume failure inside
`test_resume_token_persistence` (which has no `try`/`except`) propagates
uncaught out of `run_all_tests` — refuting the claim that no scenario
error escapes the orchestrator. -/
theorem error_policy_cx :
    run_all_tests resumeFailEnv { docs := [Doc.testDoc 99], hasIndex := true }
      = .raises "resume token expired" := rfl

/-- C3 (amended): only `test_stream_durability` catches scenario-level
errors and converts them into a result with `success = false` and the
error recorded; a resume failure in `test_resume_token_persistence` is
not caught and propagates out of `run_all_tests` as an uncaught
exception. -/
theorem error_policy_split (env : Env) (s0 : DBState) (log0 : List Doc)
    (dur : Nat) (msg : String)
    (hi : ∀ n, env.insertErr n = none) (hn : ∀ m, env.nextErr m = none)
    (hr : env.resumeErr 5 = some msg) (hl : log0.length = 4) :
    run_all_tests env s0 = .raises msg ∧
      test_stream_durability env log0 dur = .returns
        { preEvents := [(log0.length, Doc.phaseDoc "pre-disconnect")]
          tok := log0.length + 1
          postEvents := []
          result := { pre_disconnect_events := 1, post_disconnect_events := 0
                      success := false, error := some msg } } := by
  constructor
  · have h5 : env.resumeErr (([] : List Doc).length + 5) = some msg := by
      simpa using hr
    have hA := resume_raises env [] 5 msg hi hn (by decide) h5
    simp only [run_all_tests, setup, DBState.drop, DBState.create_index, hA,
      Outcome.bind]
  · have hbody : durabilityTryBody env (log0 ++ [Doc.phaseDoc "pre-disconnect"])
        (log0.length + 1) = .raises msg := by
      simp only [durabilityTryBody, watchResume, hl, hr, Outcome.bind]
    rw [durability_unfold env log0 dur (hi _) (hn _), hbody]

/-- C3 witness: concrete failing environment; scenario A's resume error
escapes `run_all_tests`, the same error in scenario B is converted. -/
theorem error_policy_split_witness :
    ((∀ n, resumeFailEnv.insertErr n = none) ∧
        (∀ m, resumeFailEnv.nextErr m = none) ∧
        resumeFailEnv.resumeErr 5 = some "resume token expired" ∧
        (testDocs 4).length = 4) ∧
      (run_all_tests resumeFailEnv { docs := [], hasIndex := false }
          = .raises "resume token expired" ∧
        test_stream_durability resumeFailEnv (testDocs 4) 0 = .returns
          { preEvents := [(4, Doc.phaseDoc "pre-disconnect")]
            tok := 5
            postEvents := []
            result := { pre_disconnect_events := 1, post_disconnect_events := 0
                        success := false, error := some "resume token expired" } }) :=
  ⟨⟨fun _ => rfl, fun _ => rfl, rfl, rfl⟩,
    error_policy_split resumeFailEnv { docs := [], hasIndex := false } (testDocs 4) 0
      "resume token expired" (fun _ => rfl) (fun _ => rfl) rfl rfl⟩

/-- C4: In Scenario B (`test_stream_durability`), when the resume
succeeds (healthy store), the returned result has `success = true` iff at
least one post-disconnect event was collected and the delivered event is
the `{"phase": "post-disconnect"}` document appended after resuming. -/
theorem durability_success_iff_spec (env : Env) (log0 : List Doc) (dur : Nat)
    (hb : env.Benign) :
    ∀ t, test_stream_durability env log0 dur = .returns t →
      (t.result.success = true ↔
        (0 < t.postEvents.length ∧
          t.postEvents.map Prod.snd = [Doc.phaseDoc "post-disconnect"])) := by
  intro t ht
  rw [durability_trace env log0 dur hb] at ht
  injection ht with ht
  subst ht
  simp

/-- C4 witness on an empty collection with the default 5-second pause. -/
theorem durability_success_iff_spec_witness :
    (benignEnv.Benign ∧ test_stream_durability benignEnv [] 5 = .returns trcB) ∧
      (trcB.result.success = true ↔
        (0 < trcB.postEvents.length ∧
          trcB.postEvents.map Prod.snd = [Doc.phaseDoc "post-disconnect"])) :=
  ⟨⟨benignEnv_benign, by rfl⟩,
    durability_success_iff_spec benignEnv [] 5 benignEnv_benign trcB (by rfl)⟩

/-- C5: In `test_stream_durability`, if reopening the stream from the
captured token raises a resume error, the returned result has
`success = false`, the error recorded, and `pre_disconnect_events` still
equal to the 1 event collected before the simulated disconnect. -/
theorem durability_resume_error_preserves_pre (env : Env) (log0 : List Doc)
    (dur : Nat) (msg : String)
    (hIns : env.insertErr log0.length = none)
    (hNext : env.nextErr log0.length = none)
    (hRes : env.resumeErr (log0.length + 1) = some msg) :
    test_stream_durability env log0 dur = .returns
      { preEvents := [(log0.length, Doc.phaseDoc "pre-disconnect")]
        tok := log0.length + 1
        postEvents := []
        result := { pre_disconnect_events := 1, post_disconnect_events := 0
                    success := false, error := some msg } } := by
  have hbody : durabilityTryBody env (log0 ++ [Doc.phaseDoc "pre-disconnect"])
      (log0.length + 1) = .raises msg := by
    simp only [durabilityTryBody, watchResume, hRes, Outcome.bind]
  rw [durability_unfold env log0 dur hIns hNext, hbody]

/-- C5 witness: expired token on an empty collection, 7-second pause. -/
theorem durability_resume_error_preserves_pre_witness :
    (resumeFailEnv.insertErr 0 = none ∧ resumeFailEnv.nextErr 0 = none ∧
        resumeFailEnv.resumeErr 1 = some "resume token expired") ∧
      test_stream_durability resumeFailEnv [] 7 = .returns
        { preEvents := [(0, Doc.phaseDoc "pre-disconnect")]
          tok := 1
          postEvents := []
          result := { pre_disconnect_events := 1, post_disconnect_events := 0
                      success := false, error := some "resume token expired" } } :=
  ⟨⟨rfl, rfl, rfl⟩,
    durability_resume_error_preserves_pre resumeFailEnv [] 7
      "resume token expired" rfl rfl rfl⟩

/-- C6 counterexample: with only 1 event available and 3 requested, the
collection loop hangs (blocking iteration, no timeout) instead of
returning the 1-event partial sequence the claim promises. -/
theorem collect_partial_cx :
    collectLoop benignEnv (eventsFrom [Doc.testDoc 0] 0) [] 3 = .hangs ∧
      (Outcome.hangs : Outcome (List Event)) ≠
        .returns (eventsFrom [Doc.testDoc 0] 0) :=
  ⟨rfl, by decide⟩

/-- C6 (amended): the collection loop pulls exactly `count` events by
repeated `next` calls whenever at least `count` events are available; it
has no timeout path, so when only `M < count` events are ever available
it blocks forever (`hangs`) rather than returning the `M` collected
events. -/
theorem collect_no_timeout_path (env : Env) (avail : List Event) (n : Nat)
    (hn : ∀ m, env.nextErr m = none) (h1 : 1 ≤ n) :
    (n ≤ avail.length →
      collectLoop env avail [] n = .returns (avail.take n) ∧
        (avail.take n).length = n) ∧
    (avail.length < n → collectLoop env avail [] n = .hangs) := by
  constructor
  · intro h2
    exact ⟨collectLoop_full env hn avail n h1 h2,
      by rw [List.length_take, Nat.min_eq_left h2]⟩
  · intro h2
    exact collectLoop_hangs env hn avail [] n (by simpa using h2)

/-- C6 witness: collecting 2 of 2 available events returns exactly the
two events. -/
theorem collect_no_timeout_path_witness :
    ((∀ m, benignEnv.nextErr m = none) ∧ 1 ≤ 2 ∧
        2 ≤ (eventsFrom (testDocs 2) 0).length) ∧
      (collectLoop benignEnv (eventsFrom (testDocs 2) 0) [] 2
          = .returns ((eventsFrom (testDocs 2) 0).take 2) ∧
        ((eventsFrom (testDocs 2) 0).take 2).length = 2) :=
  ⟨⟨fun _ => rfl, by decide, by decide⟩,
    (collect_no_timeout_path benignEnv (eventsFrom (testDocs 2) 0) 2
        (fun _ => rfl) (by decide)).1 (by decide)⟩

/-- C7: `run_all_tests` (healthy store) runs both scenarios with the
Python defaults `iterations = 5` and `disconnect_duration = 5` and
returns a single mapping with exactly one result for the resume-token
scenario and one for the durability scenario, gathered before being
reported. -/
theorem run_all_tests_defaults (env : Env) (s0 : DBState) (hb : env.Benign) :
    run_all_tests env s0 = .returns
      { resume_token_test := { initial_events := 5, resumed_events := 5, success := true }
        durability_test := { pre_disconnect_events := 1, post_disconnect_events := 1
                             success := true, error := none } } := by
  have h1 := resume_trace env [] 5 hb (by decide)
  have h2 := durability_trace env (([] : List Doc) ++ testDocs 5 ++ resumedDocs 5) 5 hb
  simp only [run_all_tests, setup, DBState.drop, DBState.create_index, h1,
    Outcome.bind, h2]

/-- C7 witness: a run over a non-empty pre-existing collection. -/
theorem run_all_tests_defaults_witness :
    benignEnv.Benign ∧
      run_all_tests benignEnv { docs := [Doc.testDoc 7], hasIndex := false }
        = .returns
          { resume_token_test :=
              { initial_events := 5, resumed_events := 5, success := true }
            durability_test :=
              { pre_disconnect_events := 1, post_disconnect_events := 1
                success := true, error := none } } :=
  ⟨benignEnv_benign,
    run_all_tests_defaults benignEnv { docs := [Doc.testDoc 7], hasIndex := false }
      benignEnv_benign⟩

/-- C8: for every `iterations ≥ 1`, each collection loop of
`test_resume_token_persistence` stops as soon as its buffer reaches
`iterations` events, so the returned counts are each at most
`iterations`, and `success` is `true` exactly when `resumed_events`
equals `iterations`. -/
theorem collection_loops_bounded (env : Env) (log0 : List Doc) (it : Nat)
    (hb : env.Benign) (h1 : 1 ≤ it) :
    ∀ t, test_resume_token_persistence env log0 it = .returns t →
      t.result.initial_events ≤ it ∧ t.result.resumed_events ≤ it ∧
        (t.result.success = true ↔ t.result.resumed_events = it) := by
  intro t ht
  rw [resume_trace env log0 it hb h1] at ht
  injection ht with ht
  subst ht
  simp

/-- C8 witness at `iterations = 2`. -/
theorem collection_loops_bounded_witness :
    (benignEnv.Benign ∧ 1 ≤ 2 ∧
        test_resume_token_persistence benignEnv [] 2 = .returns trcA2) ∧
      (trcA2.result.initial_events ≤ 2 ∧ trcA2.result.resumed_events ≤ 2 ∧
        (trcA2.result.success = true ↔ trcA2.result.resumed_events = 2)) :=
  ⟨⟨benignEnv_benign, by decide, by rfl⟩,
    collection_loops_bounded benignEnv [] 2 benignEnv_benign (by decide) trcA2
      (by rfl)⟩

/-- C9: every exception raised inside the `try:` block of
`test_stream_durability` — at the resume attempt, the post-disconnect
append, or the post-disconnect collection — is caught and converted into
a result with `success = false`, `post_disconnect_events = 0`, the error
string, and the preserved pre-disconnect count; nothing propagates to the
caller. -/
theorem durability_catches_all (env : Env) (log0 : List Doc) (dur : Nat)
    (msg : String)
    (hIns : env.insertErr log0.length = none)
    (hNext : env.nextErr log0.length = none)
    (hBody : durabilityTryBody env (log0 ++ [Doc.phaseDoc "pre-disconnect"])
        (log0.length + 1) = .raises msg) :
    test_stream_durability env log0 dur = .returns
      { preEvents := [(log0.length, Doc.phaseDoc "pre-disconnect")]
        tok := log0.length + 1
        postEvents := []
        result := { pre_disconnect_events := 1, post_disconnect_events := 0
                    success := false, error := some msg } } := by
  rw [durability_unfold env log0 dur hIns hNext, hBody]

/-- C9 witness: the post-disconnect `insert_one` (not a resume error)
raises; the result still reports the failure without propagating. -/
theorem durability_catches_all_witness :
    (postInsertFailEnv.insertErr 0 = none ∧ postInsertFailEnv.nextErr 0 = none ∧
        durabilityTryBody postInsertFailEnv [Doc.phaseDoc "pre-disconnect"] 1
          = .raises "insert failed") ∧
      test_stream_durability postInsertFailEnv [] 0 = .returns
        { preEvents := [(0, Doc.phaseDoc "pre-disconnect")]
          tok := 1
          postEvents := []
          result := { pre_disconnect_events := 1, post_disconnect_events := 0
                      success := false, error := some "insert failed" } } :=
  ⟨⟨rfl, rfl, rfl⟩,
    durability_catches_all postInsertFailEnv [] 0 "insert failed" rfl rfl rfl⟩

/-- C10: `run_all_tests` first executes `setup`, which drops the whole
collection before creating the index, so whatever was in the collection
beforehand is destroyed before either scenario runs — the run's outcome
is independent of the pre-existing data. -/
theorem setup_clears_before_scenarios (env : Env) (s0 : DBState) :
    setup s0 = s0.drop.create_index ∧ s0.drop.docs = [] ∧
      (setup s0).docs = [] ∧ (setup s0).hasIndex = true ∧
      run_all_tests env s0 = run_all_tests env { docs := [], hasIndex := false } :=
  ⟨rfl, rfl, rfl, rfl, rfl⟩

end ChangeStream
